import Mathlib

/-!
Shallow embedding of `src/font.rs` of the font-kit repository: the `Font`
type and its `Loader` implementation.  Types that live in crate modules not
shipped in `src/` (`crate::canvas`, `crate::error`, `crate::file_type`,
`crate::loader`, `crate::properties`) are modelled from the spec, as are the
queries of the external `ttf_parser` crate, which are abstracted into fields
of a `Face` record.  All `f32` values produced by the code originate from
exact integer casts (`u16 as f32`, `i16 as f32`), so they are embedded as
integers without loss.
-/

namespace FontKit

/-- Modelled from the spec: `crate::error::FontLoadingError` (§7), the
load-time error taxonomy; only `UnknownFormat` is produced by this file. -/
inductive FontLoadingError where
  | UnknownFormat
deriving DecidableEq, Repr

/-- Modelled from the spec: `crate::error::GlyphLoadingError` (§7), the
per-glyph error taxonomy. -/
inductive GlyphLoadingError where
  | NoSuchGlyph
deriving DecidableEq, Repr

/-- Modelled from the spec: `crate::file_type::FileType` (§6): a font file is
either a single face or a collection with a declared face count. -/
inductive FileType where
  | Single
  | Collection (count : Nat)
deriving DecidableEq, Repr

/-- Modelled from the spec: `crate::canvas::Format` (§3, §6): alpha-only vs
packed RGB/RGBA pixel formats. -/
inductive Format where
  | RGBA32
  | RGB24
  | A8
deriving DecidableEq, Repr

/-- Modelled from the spec: `crate::canvas::Canvas` (§3): a caller-owned
pixel buffer with fixed device-pixel `size` and pixel `format`, row-major.
Pixels are bytes; dimensions are device-pixel counts. -/
structure Canvas where
  pixels : List Nat
  size : Nat × Nat
  format : Format
deriving DecidableEq, Repr

/-- `ttf_parser::Rect`: the glyph bounding box, four `i16` coordinates. -/
structure Rect where
  x_min : Int
  y_min : Int
  x_max : Int
  y_max : Int
deriving DecidableEq, Repr

/-- `pathfinder_geometry::rect::RectF` as produced by this file: its four
coordinates all come from exact `i16 as f32` casts, embedded as integers.
`RectF::from_points(origin, lower_right)`. -/
structure RectF where
  origin_x : Int
  origin_y : Int
  lower_right_x : Int
  lower_right_y : Int
deriving DecidableEq, Repr

def RectF.from_points (p0 p1 : Int × Int) : RectF :=
  { origin_x := p0.1, origin_y := p0.2, lower_right_x := p1.1, lower_right_y := p1.2 }

/-- `ttf_parser::Weight`, the raw OS/2 weight class as the external parser
reports it. -/
inductive TtfWeight where
  | Thin | ExtraLight | Light | Normal | Medium
  | SemiBold | Bold | ExtraBold | Black
  | Other (val : Nat)
deriving DecidableEq, Repr

/-- Abstract model of a parsed `ttf_parser::Face`: each field is one query
of the external crate that `src/font.rs` invokes.  Glyph ids are the `u16`
arguments the code passes (always reduced `mod 2^16` at the call site). -/
structure Face where
  number_of_glyphs : Nat
  is_monospaced : Bool
  is_italic : Bool
  is_oblique : Bool
  weight : TtfWeight
  glyph_index : Char → Option Nat
  glyph_hor_advance : Nat → Option Nat
  glyph_ver_advance : Nat → Option Nat
  glyph_bounding_box : Nat → Option Rect

/-- Modelled from the spec: the embedded font resource
(`include_bytes!("../resources/DejaVuSansMono.ttf")`; the resource file is
not under `src/`).  Everything proved below uses only that it is one fixed
byte buffer, independent of any caller input, and nonempty; the stand-in
holds the 4-byte TrueType `0x00010000` sfnt magic a valid resource starts
with. -/
def ARIAL : List Nat := [0, 1, 0, 0]

/-- `Font` from `src/font.rs`: the reference-counted backing bytes and the
parsed face view. -/
structure Font where
  font_data : List Nat
  face : Face

/-- `Font::from_bytes`.  The source ignores its `_font_data` argument and
parses the embedded `ARIAL` buffer at `font_index`; the external
`Face::parse` is abstracted as the `parse` argument.  On parse failure the
error is mapped to `UnknownFormat`; on success the stored backing bytes are
a copy of `ARIAL`. -/
def from_bytes (parse : List Nat → Nat → Option Face) (_font_data : List Nat)
    (font_index : Nat) : Except FontLoadingError Font :=
  match parse ARIAL font_index with
  | none => .error .UnknownFormat
  | some face => .ok { font_data := ARIAL, face := face }

/-- `Font::analyze_bytes`: ignores the buffer and returns
`FileType::Collection(1)`. -/
def analyze_bytes (_font_data : List Nat) : Except FontLoadingError FileType :=
  .ok (.Collection 1)

/-- `Font::analyze_file` (`src/font.rs` has an inherent and a trait copy,
both identical): ignores the file's contents and returns
`FileType::Collection(1)`.  The file handle is embedded as the byte contents
it designates. -/
def analyze_file (_file_contents : List Nat) : Except FontLoadingError FileType :=
  .ok (.Collection 1)

/-- `Font::analyze_path`: ignores the path and returns
`FileType::Collection(1)`.  The path is embedded as the byte contents of the
file it designates. -/
def analyze_path (_path_contents : List Nat) : Except FontLoadingError FileType :=
  .ok (.Collection 1)

/-- `Font::glyph_count`: `number_of_glyphs` widened from `u16` to `u32`. -/
def glyph_count (f : Font) : Nat :=
  f.face.number_of_glyphs

/-- `Font::glyph_for_char`: the cmap lookup, widened to `u32`. -/
def glyph_for_char (f : Font) (character : Char) : Option Nat :=
  f.face.glyph_index character

/-- `Font::is_monospace`. -/
def is_monospace (f : Font) : Bool :=
  f.face.is_monospaced

/-- `Font::postscript_name`: always `None`. -/
def postscript_name (_f : Font) : Option String :=
  none

/-- `Font::full_name`: always the literal `"Arial"`. -/
def full_name (_f : Font) : String :=
  "Arial"

/-- `Font::family_name`: always the literal `"Arail"`. -/
def family_name (_f : Font) : String :=
  "Arail"

/-- `Font::outline`: the body is `Ok(())` — the glyph id and hinting mode
are never read and the sink is never called, so both are omitted here. -/
def outline (_f : Font) (_glyph_id : Nat) : Except GlyphLoadingError Unit :=
  .ok ()

/-- `Font::origin`: the body is `Ok(Vector2F::default())`, the zero vector,
for every glyph id. -/
def origin (_f : Font) (_glyph_id : Nat) : Except GlyphLoadingError (Int × Int) :=
  .ok (0, 0)

/-- `Font::typographic_bounds`: the `ttf_parser` bounding-box query at
`glyph_id as u16`, with an absent box mapped to `NoSuchGlyph`; the `i16`
coordinates are cast exactly to `f32` (here: `Int`). -/
def typographic_bounds (f : Font) (glyph_id : Nat) :
    Except GlyphLoadingError RectF :=
  match f.face.glyph_bounding_box (glyph_id % 65536) with
  | none => .error .NoSuchGlyph
  | some rect =>
      .ok (RectF.from_points (rect.x_min, rect.y_min) (rect.x_max, rect.y_max))

/-- `Font::advance`: the horizontal then the vertical `ttf_parser` advance
query at `glyph_id as u16`, each absent result mapped to `NoSuchGlyph`; the
`u16` values are cast exactly to `f32` (here: `Int`). -/
def advance (f : Font) (glyph_id : Nat) :
    Except GlyphLoadingError (Int × Int) :=
  match f.face.glyph_hor_advance (glyph_id % 65536) with
  | none => .error .NoSuchGlyph
  | some h =>
      match f.face.glyph_ver_advance (glyph_id % 65536) with
      | none => .error .NoSuchGlyph
      | some v => .ok ((h : Int), (v : Int))

/-- Modelled from the spec: `crate::properties::Style` (§3): Normal, Italic,
Oblique, mutually exclusive. -/
inductive Style where
  | Normal | Italic | Oblique
deriving DecidableEq, Repr

/-- Modelled from the spec: `crate::properties::Weight` (§4.2): a numeric
weight on the 100..900 named-band scale.  The source stores `f32`, but every
value it ever builds is an exact integer cast, embedded as `Int`. -/
structure Weight where
  value : Int
deriving DecidableEq, Repr

def Weight.THIN : Weight := ⟨100⟩
def Weight.EXTRA_LIGHT : Weight := ⟨200⟩
def Weight.LIGHT : Weight := ⟨300⟩
def Weight.NORMAL : Weight := ⟨400⟩
def Weight.MEDIUM : Weight := ⟨500⟩
def Weight.SEMIBOLD : Weight := ⟨600⟩
def Weight.BOLD : Weight := ⟨700⟩
def Weight.BLACK : Weight := ⟨900⟩

/-- Modelled from the spec: `crate::properties::Stretch` (§3): a normalized
width class; only `Stretch::NORMAL` is produced by this file. -/
inductive Stretch where
  | NORMAL
deriving DecidableEq, Repr

/-- Modelled from the spec: `crate::properties::Properties` (§3). -/
structure Properties where
  style : Style
  weight : Weight
  stretch : Stretch
deriving DecidableEq, Repr

/-- `Font::properties`: italic takes precedence over oblique; the raw
`ttf_parser` weight is mapped band by band exactly as the source's `match`
(note it sends `ExtraBold` to `Weight::BOLD`); stretch is always normal. -/
def properties (f : Font) : Properties :=
  { style :=
      if f.face.is_italic then .Italic
      else if f.face.is_oblique then .Oblique
      else .Normal,
    weight :=
      match f.face.weight with
      | .Thin => Weight.THIN
      | .ExtraLight => Weight.EXTRA_LIGHT
      | .Light => Weight.LIGHT
      | .Normal => Weight.NORMAL
      | .Medium => Weight.MEDIUM
      | .SemiBold => Weight.SEMIBOLD
      | .Bold => Weight.BOLD
      | .ExtraBold => Weight.BOLD
      | .Black => Weight.BLACK
      | .Other val => ⟨(val : Int)⟩,
    stretch := .NORMAL }

/-- The 340-byte (20×17) hardcoded bitmap `Font::rasterize_glyph` writes,
transcribed from `src/font.rs` lines 217–233. -/
def GLYPH_BITMAP : List Nat :=
  [88, 255, 255, 255, 255, 255, 255, 255, 255, 255, 255, 255, 255, 255, 255, 255, 140,
   88, 255, 255, 255, 255, 255, 255, 255, 255, 255, 255, 255, 255, 255, 255, 255, 140,
   0, 0, 0, 0, 0, 0, 0, 188, 255, 232, 0, 0, 0, 0, 0, 0, 0,
   0, 0, 0, 0, 0, 0, 0, 188, 255, 232, 0, 0, 0, 0, 0, 0, 0,
   0, 0, 0, 0, 0, 0, 0, 188, 255, 232, 0, 0, 0, 0, 0, 0, 0,
   0, 0, 0, 0, 0, 0, 0, 188, 255, 232, 0, 0, 0, 0, 0, 0, 0,
   0, 0, 0, 0, 0, 0, 0, 188, 255, 232, 0, 0, 0, 0, 0, 0, 0,
   0, 0, 0, 0, 0, 0, 0, 188, 255, 232, 0, 0, 0, 0, 0, 0, 0,
   0, 0, 0, 0, 0, 0, 0, 188, 255, 232, 0, 0, 0, 0, 0, 0, 0,
   0, 0, 0, 0, 0, 0, 0, 188, 255, 232, 0, 0, 0, 0, 0, 0, 0,
   0, 0, 0, 0, 0, 0, 0, 188, 255, 232, 0, 0, 0, 0, 0, 0, 0,
   0, 0, 0, 0, 0, 0, 0, 188, 255, 232, 0, 0, 0, 0, 0, 0, 0,
   0, 0, 0, 0, 0, 0, 0, 188, 255, 232, 0, 0, 0, 0, 0, 0, 0,
   0, 0, 0, 0, 0, 0, 0, 188, 255, 232, 0, 0, 0, 0, 0, 0, 0,
   0, 0, 0, 0, 0, 0, 0, 188, 255, 232, 0, 0, 0, 0, 0, 0, 0,
   0, 0, 0, 0, 0, 0, 0, 188, 255, 232, 0, 0, 0, 0, 0, 0, 0,
   0, 0, 0, 0, 0, 0, 0, 188, 255, 232, 0, 0, 0, 0, 0, 0, 0,
   0, 0, 0, 0, 0, 0, 0, 188, 255, 232, 0, 0, 0, 0, 0, 0, 0,
   0, 0, 0, 0, 0, 0, 0, 188, 255, 232, 0, 0, 0, 0, 0, 0, 0,
   0, 0, 0, 0, 0, 0, 0, 188, 255, 232, 0, 0, 0, 0, 0, 0, 0]

/-- `Font::rasterize_glyph`.  The source ignores the glyph id and never
reads the point size, transform, hinting or rasterization options (those
four are omitted here); it replaces `canvas.pixels` with the 340-byte
`GLYPH_BITMAP` extended by `area - 340` zero bytes, where `area` is
`canvas.size.x() * canvas.size.y()`, and sets `canvas.format` to `A8`.  The
`usize` subtraction `area - 20 * 17` underflows and the call panics when
`area < 340`; a panic is embedded as `none`. -/
def rasterize_glyph (_f : Font) (canvas : Canvas) (_glyph_id : Nat) :
    Option (Except GlyphLoadingError Canvas) :=
  let area := canvas.size.1 * canvas.size.2
  if area < 340 then
    none
  else
    some (.ok { canvas with
      pixels := GLYPH_BITMAP ++ List.replicate (area - 340) 0,
      format := .A8 })

/-- Modelled from the spec: `crate::loader::FallbackResult` (§3): the
ordered fallback candidates and the byte length of the renderable prefix. -/
structure FallbackResult where
  fonts : List Font
  valid_len : Nat

/-- `Font::get_fallbacks`: returns no candidate fonts and `text.len()`, the
full UTF-8 byte length of `text`, without looking at the face, the text's
characters or the locale. -/
def get_fallbacks (_f : Font) (text : String) (_locale : String) :
    FallbackResult :=
  { fonts := [], valid_len := text.utf8ByteSize }

/-- `Font::copy_font_data`: always `Some`, sharing the stored backing
buffer. -/
def copy_font_data (f : Font) : Option (List Nat) :=
  some f.font_data

/-- Written from the spec's words (§4.6), for comparison with
`get_fallbacks`: the byte offset of the first character of `text` that
`glyph_for_char` cannot resolve, or the full UTF-8 byte length when every
character resolves. -/
def spec_valid_len (f : Font) (text : String) : Nat :=
  go text.toList
where
  go : List Char → Nat
  | [] => 0
  | c :: cs =>
      match glyph_for_char f c with
      | none => 0
      | some _ => c.utf8Size + go cs

/-!  Concrete fixtures used to evaluate the embedded operations.  `face0`
models a minimal parsed face: two glyph slots (a shape at id 0, a
space-like glyph with an empty outline at id 1), horizontal metrics for
both, no vertical metrics (as for the embedded DejaVuSansMono, which has no
`vmtx` table), and an empty character map. -/

def face0 : Face :=
  { number_of_glyphs := 2
    is_monospaced := true
    is_italic := false
    is_oblique := false
    weight := .Normal
    glyph_index := fun _ => none
    glyph_hor_advance := fun g => if g < 2 then some 1233 else none
    glyph_ver_advance := fun _ => none
    glyph_bounding_box := fun _ => none }

def font0 : Font :=
  { font_data := ARIAL, face := face0 }

/-- A parse model that succeeds, as `Face::parse(ARIAL, 0)` does on the
valid embedded resource. -/
def parseOk : List Nat → Nat → Option Face :=
  fun _ _ => some face0

/-- A canvas of exactly 20×17 = 340 pixels. -/
def canvas340 : Canvas :=
  { pixels := [], size := (20, 17), format := .A8 }

/-- A canvas of 20×18 = 360 pixels, pre-initialized by the caller to the
byte 7 everywhere, with the RGBA32 format set. -/
def canvasPre : Canvas :=
  { pixels := List.replicate 360 7, size := (20, 18), format := .RGBA32 }

/-- A canvas of 2×3 = 6 pixels, fewer than 340. -/
def canvasSmall : Canvas :=
  { pixels := List.replicate 6 0, size := (2, 3), format := .A8 }

def OTTO_BYTES : List Nat :=
  [0x4F, 0x54, 0x54, 0x4F, 0, 0, 0, 0]

/-- A `ttcf` collection header declaring 3 faces: tag, version 1.0, and a
big-endian face count of 3. -/
def TTCF_BYTES : List Nat :=
  [0x74, 0x74, 0x63, 0x66, 0, 1, 0, 0, 0, 0, 0, 3]

set_option maxRecDepth 4000 in
lemma GLYPH_BITMAP_length : GLYPH_BITMAP.length = 340 := by decide

/-- C1: falsified by the code.  At the out-of-range glyph id 2 =
`glyph_count` of the loaded face, `advance` and `typographic_bounds` do
fail with `NoSuchGlyph`, but `outline`, `origin` and `rasterize_glyph`
succeed instead of returning `NoSuchGlyph`: their bodies never inspect the
glyph id. -/
theorem out_of_range_glyph_not_rejected :
    glyph_count font0 = 2 ∧
    advance font0 2 = .error .NoSuchGlyph ∧
    typographic_bounds font0 2 = .error .NoSuchGlyph ∧
    outline font0 2 = .ok () ∧
    origin font0 2 = .ok (0, 0) ∧
    rasterize_glyph font0 canvas340 2 =
      some (.ok { pixels := GLYPH_BITMAP ++ List.replicate 0 0,
                  size := (20, 17), format := .A8 }) :=
  ⟨rfl, rfl, rfl, rfl, rfl, rfl⟩

/-- C2: `from_bytes` parses the embedded `ARIAL` buffer at the given index
and discards the caller's byte buffer, so for every two buffers and every
index the resulting `Except` values — and hence all queries on the
resulting fonts — are equal. -/
theorem from_bytes_ignores_input_buffer
    (parse : List Nat → Nat → Option Face) (b1 b2 : List Nat) (i : Nat) :
    from_bytes parse b1 i = from_bytes parse b2 i :=
  rfl

set_option maxRecDepth 4000 in
/-- C3: falsified by the code.  On a 20×18 canvas the caller pre-filled
with the byte 7 and set to `RGBA32`, `rasterize_glyph` zeroes pixel 350
(outside the 340-byte hardcoded footprint) and forces the format to `A8`,
so pixels outside the footprint are not preserved and the caller's format
is not honoured. -/
theorem rasterize_glyph_clobbers_canvas :
    canvasPre.format = .RGBA32 ∧
    canvasPre.pixels.getD 350 0 = 7 ∧
    rasterize_glyph font0 canvasPre 0 =
      some (.ok { pixels := GLYPH_BITMAP ++ List.replicate 20 0,
                  size := (20, 18), format := .A8 }) ∧
    (GLYPH_BITMAP ++ List.replicate 20 0).getD 350 7 = 0 ∧
    Format.A8 ≠ Format.RGBA32 :=
  ⟨rfl, by decide, rfl, by decide, by decide⟩

/-- C4: when the canvas area is at least 340 pixels, `rasterize_glyph`
returns `Ok`, leaves the pixel buffer with length exactly the area (the
340-byte bitmap padded with zeros) and sets the format to `A8`; when the
area is below 340 the padding subtraction underflows and the call panics
(`none`). -/
theorem rasterize_glyph_total_iff_340 (f : Font) (c : Canvas) (g : Nat) :
    (340 ≤ c.size.1 * c.size.2 →
      rasterize_glyph f c g =
        some (.ok { pixels :=
                      GLYPH_BITMAP ++ List.replicate (c.size.1 * c.size.2 - 340) 0,
                    size := c.size, format := .A8 }) ∧
      (GLYPH_BITMAP ++ List.replicate (c.size.1 * c.size.2 - 340) 0).length
        = c.size.1 * c.size.2) ∧
    (c.size.1 * c.size.2 < 340 → rasterize_glyph f c g = none) := by
  constructor
  · intro h
    constructor
    · simp only [rasterize_glyph, Nat.not_lt.mpr h, if_false]
    · simp only [List.length_append, List.length_replicate, GLYPH_BITMAP_length]
      omega
  · intro h
    simp only [rasterize_glyph, h, if_true]

/-- Witness for C4 at the 20×17 canvas (succeeds) and the 2×3 canvas
(panics). -/
theorem rasterize_glyph_total_iff_340_witness :
    (rasterize_glyph font0 canvas340 0 =
      some (.ok { pixels :=
                    GLYPH_BITMAP ++
                      List.replicate (canvas340.size.1 * canvas340.size.2 - 340) 0,
                  size := canvas340.size, format := .A8 })) ∧
    rasterize_glyph font0 canvasSmall 0 = none :=
  ⟨((rasterize_glyph_total_iff_340 font0 canvas340 0).1 (by decide)).1,
   (rasterize_glyph_total_iff_340 font0 canvasSmall 0).2 (by decide)⟩

/-- C5: falsified by the code.  Glyph 0 is valid (`glyph_count` is 2) and
has a horizontal advance, but because the face has no vertical metrics
(`glyph_ver_advance` is absent, as for the embedded DejaVuSansMono, which
has no vmtx table) `advance` fails with `NoSuchGlyph` instead of
synthesizing a vertical advance. -/
theorem advance_fails_when_vertical_metrics_absent :
    0 < glyph_count font0 ∧
    font0.face.glyph_hor_advance 0 = some 1233 ∧
    font0.face.glyph_ver_advance 0 = none ∧
    advance font0 0 = .error .NoSuchGlyph :=
  ⟨by decide, rfl, rfl, rfl⟩

/-- C6: falsified by the code.  Glyph 1 is valid (`glyph_count` is 2) but
has an empty outline, so the parser reports no bounding box, and
`typographic_bounds` fails with `NoSuchGlyph` instead of returning a
zero-area box. -/
theorem typographic_bounds_fails_on_empty_outline :
    1 < glyph_count font0 ∧
    font0.face.glyph_bounding_box 1 = none ∧
    typographic_bounds font0 1 = .error .NoSuchGlyph :=
  ⟨by decide, rfl, rfl⟩

/-- C7: falsified by the code.  For a face that cannot render the character
at byte offset 0 of the text "ab", `get_fallbacks` still reports a
`valid_len` of 2 — the full byte length, returned without consulting
`glyph_for_char` — while the specified value (`spec_valid_len`) is 0. -/
theorem get_fallbacks_ignores_coverage :
    glyph_for_char font0 'a' = none ∧
    (get_fallbacks font0 "ab" "en").valid_len = 2 ∧
    spec_valid_len font0 "ab" = 0 ∧
    (get_fallbacks font0 "ab" "en").valid_len ≠ spec_valid_len font0 "ab" ∧
    (get_fallbacks font0 "ab" "en").fonts = [] :=
  ⟨rfl, by decide, by decide, by decide, rfl⟩

/-- C8: falsified by the code.  A buffer with the "OTTO" magic and a "ttcf"
collection declaring 3 faces are both classified as `Collection(1)` by
every `analyze_*` entry point, not as a single face resp. a collection of
3. -/
theorem analyze_ignores_magic_bytes :
    analyze_bytes OTTO_BYTES = .ok (.Collection 1) ∧
    analyze_bytes TTCF_BYTES = .ok (.Collection 1) ∧
    analyze_path OTTO_BYTES = .ok (.Collection 1) ∧
    analyze_file OTTO_BYTES = .ok (.Collection 1) ∧
    FileType.Collection 1 ≠ FileType.Single ∧
    FileType.Collection 1 ≠ FileType.Collection 3 :=
  ⟨rfl, rfl, rfl, rfl, by decide, by decide⟩

/-- C9: falsified by the code.  Loading the empty buffer succeeds (parsing
is done on the embedded resource, not the input), and `copy_font_data` then
returns the embedded `ARIAL` bytes, which differ from the loaded buffer. -/
theorem copy_font_data_returns_embedded_bytes :
    from_bytes parseOk [] 0 = .ok font0 ∧
    copy_font_data font0 = some ARIAL ∧
    ARIAL ≠ ([] : List Nat) :=
  ⟨rfl, rfl, by decide⟩

/-- C10: falsified by the code.  For every loaded font, `family_name` is
the fabricated literal "Arail" and `full_name` the fabricated literal
"Arial", independent of any name table, and `postscript_name` is always
absent even when a record exists. -/
theorem names_are_fabricated_placeholders (f : Font) :
    family_name f = "Arail" ∧
    full_name f = "Arial" ∧
    postscript_name f = none :=
  ⟨rfl, rfl, rfl⟩

end FontKit
